import Mathlib

/-!
Verification of the WSJT-X UDP protocol codec (`wsjtxmon.py`, `QColor.py`).

Byte buffers are modelled as `List Nat` (each entry one octet).  Python
strings are modelled by their UTF-8 byte sequences (`List Nat`), so the
pair `str.decode('utf-8')` / `str.encode()` is the identity on the byte
list; this is faithful for buffers whose string fields are valid UTF-8.

The repository imports two local helper modules, `encode` and `decode`
(the fixed-width Primitive Codec), whose source files are not part of the
repository.  They are modelled below from the spec (§4.1): encode masks
out-of-range values to the field width; decode reads the given slice as a
base-256 integer in the stated byte order (a short slice simply yields the
value of the bytes present, mirroring Python's clamping slices and
`int.from_bytes`).
-/

/-- Python slice `data[i : i+n]`, with its clamping semantics. -/
def byteSlice (data : List Nat) (i n : Nat) : List Nat :=
  (data.drop i).take n

/-- Modelled from the spec: missing module `decode` — big-endian unsigned
integer of a byte slice (`decode.byte`, `decode.ulong`, `decode.uquad`). -/
def decode_be (bs : List Nat) : Nat :=
  bs.foldl (fun acc b => 256 * acc + b) 0

/-- Modelled from the spec: missing module `decode` — little-endian unsigned
integer of a byte slice (`decode.uword` with `endian='little'`). -/
def decode_le (bs : List Nat) : Nat :=
  bs.foldr (fun b acc => 256 * acc + b) 0

/-- Modelled from the spec: missing module `decode` — `decode.byte` on a
(at most one byte long) slice; endianness is irrelevant for one byte. -/
def decode_byte (bs : List Nat) : Nat :=
  decode_be bs

/-- Modelled from the spec: missing module `decode` — `decode.long`, a
signed 32-bit big-endian integer (two's complement). -/
def decode_long_be (bs : List Nat) : Int :=
  let v := decode_be bs
  if v < 2 ^ 31 then (v : Int) else (v : Int) - 2 ^ 32

/-- Modelled from the spec: missing module `encode` — `encode.byte`;
out-of-range values are masked to the 8-bit width. -/
def encode_byte (v : Nat) : List Nat :=
  [v % 256]

/-- Modelled from the spec: missing module `encode` — `encode.uword` with
`endian='little'` (16-bit, masked to width). -/
def encode_uword_le (v : Nat) : List Nat :=
  [v % 256, v / 256 % 256]

/-- Modelled from the spec: missing module `encode` — `encode.ulong` with
`endian='big'` (32-bit, masked to width). -/
def encode_ulong_be (v : Nat) : List Nat :=
  [v / 2 ^ 24 % 256, v / 2 ^ 16 % 256, v / 2 ^ 8 % 256, v % 256]

/-- Modelled from the spec: missing module `encode` — `encode.string`:
the raw UTF-8 bytes of the string, which is the identity under the
byte-list modelling of strings. -/
def encode_string (s : List Nat) : List Nat :=
  s

/-- Python's `v & 0xFF` on an arbitrary (possibly negative) `int`. -/
def int_and_255 (v : Int) : Nat :=
  (v % 256).toNat

/-! ## QColor.py -/

/-- Source `rgba_join`: pack red, green, blue, alpha into one 32-bit value. -/
def rgba_join (red grn blu alpha : Nat) : Nat :=
  (red % 256) * 2 ^ 24 + (grn % 256) * 2 ^ 16 + (blu % 256) * 2 ^ 8 + alpha % 256

/-- Source `rgba_split`: split a packed 32-bit RGBA value into its components. -/
def rgba_split (rgba : Nat) : Nat × Nat × Nat × Nat :=
  (rgba / 2 ^ 24 % 256, rgba / 2 ^ 16 % 256, rgba / 2 ^ 8 % 256, rgba % 256)

/-- The instance variables of a `QColor` object (`cspec`, `red`, `grn`,
`blu`, `alpha`, `pad` and the serialized byte array `array`). -/
structure QColor where
  cspec : Nat
  red : Nat
  grn : Nat
  blu : Nat
  alpha : Nat
  pad : Nat
  array : List Nat
deriving Repr, DecidableEq

def CSPEC_INVALID : Nat := 0
def CSPEC_RGB : Nat := 1

def COLOR_BLACK : Int := 2
def COLOR_WHITE : Int := 3
def COLOR_DARK_GRAY : Int := 4
def COLOR_GRAY : Int := 5
def COLOR_LIGHT_GRAY : Int := 6
def COLOR_RED : Int := 7
def COLOR_GREEN : Int := 8
def COLOR_BLUE : Int := 9
def COLOR_CYAN : Int := 10
def COLOR_MAGENTA : Int := 11
def COLOR_YELLOW : Int := 12
def COLOR_DARK_RED : Int := 13
def COLOR_DARK_GREEN : Int := 14
def COLOR_DARK_BLUE : Int := 15
def COLOR_DARK_CYAN : Int := 16
def COLOR_DARK_MAGENTA : Int := 17
def COLOR_DARK_YELLOW : Int := 18
def COLOR_TRANSPARENT : Int := 19
def COLOR_ORANGE : Int := 20
def COLOR_DARK_VIOLET : Int := 21
def COLOR_INVALID : Int := 255

/-- State set by `QColor.__init__` before the optional `setByName`/`setByValue` call. -/
def QColor.base (alpha : Int) : QColor :=
  { cspec := CSPEC_RGB
    red := 0
    grn := 0
    blu := 0
    alpha := int_and_255 alpha
    pad := 0
    array := encode_byte CSPEC_RGB }

/-- Source `QColor.encode`: optionally override channels (a negative argument
means "keep the previous value", the Python `-1` sentinel), then rebuild
`self.array` as cspec byte followed by five little-endian 16-bit words
(alpha, red, grn, blu, pad).  Returns the updated object; the encoded
bytes are its `array` field. -/
def QColor.encode (c : QColor) (red grn blu alpha : Int) : QColor :=
  let c := if 0 ≤ red then { c with red := int_and_255 red } else c
  let c := if 0 ≤ grn then { c with grn := int_and_255 grn } else c
  let c := if 0 ≤ blu then { c with blu := int_and_255 blu } else c
  let c := if 0 ≤ alpha then { c with alpha := int_and_255 alpha } else c
  { c with array :=
      encode_byte c.cspec ++ encode_uword_le c.alpha ++ encode_uword_le c.red ++
      encode_uword_le c.grn ++ encode_uword_le c.blu ++ encode_uword_le c.pad }

/-- Source `QColor.decode`: incremental field-by-field decode of a serialized
stream.  The Python original threads a `status` flag through a flat chain
of `if status & (remain >= k)` blocks; once the flag is cleared every
later block is skipped, so the chain is written here as nested
conditionals with the same per-field byte requirements (1, then 2, 2, 2,
2, 2) and the same partial-update behavior on truncation. -/
def QColor.decode (c : QColor) (data : List Nat) : QColor × Bool :=
  let remain := data.length
  if 1 ≤ remain then
    let c := { c with cspec := decode_byte (byteSlice data 0 1) }
    if 2 ≤ remain - 1 then
      let c := { c with alpha := decode_le (byteSlice data 1 2) }
      if 2 ≤ remain - 3 then
        let c := { c with red := decode_le (byteSlice data 3 2) }
        if 2 ≤ remain - 5 then
          let c := { c with grn := decode_le (byteSlice data 5 2) }
          if 2 ≤ remain - 7 then
            let c := { c with blu := decode_le (byteSlice data 7 2) }
            if 2 ≤ remain - 9 then
              ({ c with pad := decode_le (byteSlice data 9 2) }, true)
            else (c, false)
          else (c, false)
        else (c, false)
      else (c, false)
    else (c, false)
  else (c, false)

/-- Source `QColor.setByName`: force cspec to RGB and pad to 0, set alpha (the
supplied value when non-negative, else fully opaque), then set the
channels from the pre-defined name table; `COLOR_TRANSPARENT` also forces
alpha to 0 and `COLOR_INVALID` sets the Invalid sentinel state. -/
def QColor.setByName (c : QColor) (name : Int) (alpha : Int) : QColor :=
  let c := { c with cspec := CSPEC_RGB, pad := 0 }
  let c := if 0 ≤ alpha then { c with alpha := alpha.toNat } else { c with alpha := 0xFF }
  if name = COLOR_BLACK then { c with red := 0x00, grn := 0x00, blu := 0x00 }
  else if name = COLOR_WHITE then { c with red := 0xFF, grn := 0xFF, blu := 0xFF }
  else if name = COLOR_DARK_GRAY then { c with red := 0x80, grn := 0x80, blu := 0x80 }
  else if name = COLOR_GRAY then { c with red := 0xA0, grn := 0xA0, blu := 0xA4 }
  else if name = COLOR_LIGHT_GRAY then { c with red := 0xC0, grn := 0xC0, blu := 0xC0 }
  else if name = COLOR_RED then { c with red := 0xFF, grn := 0x00, blu := 0x00 }
  else if name = COLOR_GREEN then { c with red := 0x00, grn := 0xFF, blu := 0x00 }
  else if name = COLOR_BLUE then { c with red := 0x00, grn := 0x00, blu := 0xFF }
  else if name = COLOR_CYAN then { c with red := 0x00, grn := 0xFF, blu := 0xFF }
  else if name = COLOR_MAGENTA then { c with red := 0xFF, grn := 0x00, blu := 0xFF }
  else if name = COLOR_YELLOW then { c with red := 0xFF, grn := 0xFF, blu := 0x00 }
  else if name = COLOR_DARK_RED then { c with red := 0x80, grn := 0x00, blu := 0x00 }
  else if name = COLOR_DARK_GREEN then { c with red := 0x00, grn := 0x80, blu := 0x00 }
  else if name = COLOR_DARK_BLUE then { c with red := 0x00, grn := 0x00, blu := 0x80 }
  else if name = COLOR_DARK_CYAN then { c with red := 0x00, grn := 0x80, blu := 0x80 }
  else if name = COLOR_DARK_MAGENTA then { c with red := 0x80, grn := 0x00, blu := 0x80 }
  else if name = COLOR_DARK_YELLOW then { c with red := 0x80, grn := 0x80, blu := 0x00 }
  else if name = COLOR_ORANGE then { c with red := 0xFF, grn := 0xA5, blu := 0x00 }
  else if name = COLOR_DARK_VIOLET then { c with red := 0x94, grn := 0x00, blu := 0xD3 }
  else if name = COLOR_TRANSPARENT then
    { c with red := 0x00, grn := 0x00, blu := 0x00, alpha := 0x00 }
  else if name = COLOR_INVALID then
    { c with cspec := CSPEC_INVALID, red := 0xFFFF, grn := 0xFFFF, blu := 0xFFFF,
             alpha := 0xFFFF }
  else c

/-- Source `QColor.setByValue`: force cspec to RGB and pad to 0; a packed `rgba`
value, when given, overrides everything, otherwise the non-negative
individual channel arguments override the previous values. -/
def QColor.setByValue (c : QColor) (red grn blu alpha : Int) (rgba : Option Nat) : QColor :=
  let c := { c with cspec := CSPEC_RGB, pad := 0 }
  match rgba with
  | some v =>
      let s := rgba_split v
      { c with red := s.1, grn := s.2.1, blu := s.2.2.1, alpha := s.2.2.2 }
  | none =>
      let c := if 0 ≤ alpha then { c with alpha := int_and_255 alpha } else c
      let c := if 0 ≤ red then { c with red := int_and_255 red } else c
      let c := if 0 ≤ grn then { c with grn := int_and_255 grn } else c
      if 0 ≤ blu then { c with blu := int_and_255 blu } else c

/-- Constructor call `QColor(name=n, alpha=a)`: construct and then set the color by name. -/
def QColor.ofName (name : Int) (alpha : Int) : QColor :=
  (QColor.base alpha).setByName name alpha

/-! ## wsjtxmon.py -/

/-- An entry of the heterogeneous `self.Message` list: either a Python
integer, or a string (as its UTF-8 bytes), or a display-only string built
with Python %-formatting / `zfill` / `str()`.  The rendered characters of
the latter are modelled opaquely by the format together with the argument
values (for the f64 delta-time field, by the raw eight slice bytes, since
IEEE-754 text formatting is not shallowly embeddable); no claim concerns
the character content of these display strings. -/
inductive PyVal where
  | int (n : Int)
  | str (s : List Nat)
  | fmt (format : String) (args : List Int)
deriving Repr, DecidableEq

def MAGIC : Nat := 0xADBCCBDA
def MSG_HEARTBEAT : Nat := 0
def MSG_STATUS : Nat := 1
def MSG_DECODE : Nat := 2
def MSG_CLEAR : Nat := 3
def MSG_REPLY : Nat := 4
def MSG_QSO_LOGGED : Nat := 5
def MSG_CLOSE : Nat := 6
def MSG_WSPR_DECODE : Nat := 10
def MSG_ADIF_LOGGED : Nat := 12
def MSG_HIGHLIGHT_CALL : Nat := 13
def MSG_NONE : Nat := 99

/-- The protocol-relevant instance variables of a `wsjtxmon` object.  The
socket fields (`Socket`, `IpAddr`, `IpPort`, `DstAddr`, `Timeout`,
`Verbose`) only affect I/O and diagnostics and are outside the codec. -/
structure wsjtxmon where
  MsgId : List Nat
  Message : List PyVal
  Reply : List Nat
  Schema : Nat
deriving Repr, DecidableEq

/-- Source `wsjtxmon.__init__`: `MsgId = "WSJTXMON"`, `Message = [MSG_NONE]`,
empty reply, schema 0. -/
def wsjtxmon.init : wsjtxmon :=
  { MsgId := [87, 83, 74, 84, 88, 77, 79, 78]
    Message := [PyVal.int (MSG_NONE : Nat)]
    Reply := []
    Schema := 0 }

/-- Source `_make_time_str`: milliseconds since midnight to an `"HHMMSS"` display
string (the three numbers are computed exactly; only their `%02d`
rendering is opaque). -/
def make_time_str (elapsed_ms : Nat) : PyVal :=
  let elapsed_seconds := elapsed_ms / 1000
  let hours := elapsed_seconds / 3600
  let remaining_seconds := elapsed_seconds - hours * 3600
  let minutes := remaining_seconds / 60
  let seconds := remaining_seconds - minutes * 60
  PyVal.fmt "%02d%02d%02d" [(hours : Int), (minutes : Int), (seconds : Int)]

/-- Source `_make_date_str`: Julian day number to a `"YYYYMMDD"` display string.
The source computes it with Python float division (`36524.25` etc.), which
is not shallowly embeddable; it is display-only and no claim concerns it,
so it is modelled opaquely by its input. -/
def make_date_str (julian_day : Nat) : PyVal :=
  PyVal.fmt "_make_date_str" [(julian_day : Int)]

/-- Source `_parse_utf8`: read a 4-byte big-endian length; `0xFFFFFFFF` is the
null-string sentinel, yielding the empty string with reported length 0;
otherwise the string is the declared number of following bytes. -/
def parse_utf8 (data : List Nat) : Nat × List Nat :=
  let utf8_len := decode_be (byteSlice data 0 4)
  if utf8_len = 0xFFFFFFFF then (0, [])
  else (utf8_len, (data.drop 4).take utf8_len)

/-- Source `_parse_adif_logged`. -/
def wsjtxmon.parse_adif_logged (st : wsjtxmon) (data : List Nat) : wsjtxmon :=
  let idp := parse_utf8 data
  let index := 4 + idp.1
  let adifp := parse_utf8 (data.drop index)
  { st with Message := [PyVal.int (MSG_ADIF_LOGGED : Nat), PyVal.str idp.2, PyVal.str adifp.2] }

/-- Source `_parse_clear`: the trailing window byte is optional (absent when the
buffer ends). -/
def wsjtxmon.parse_clear (st : wsjtxmon) (data : List Nat) : wsjtxmon :=
  let idp := parse_utf8 data
  let index := 4 + idp.1
  let window := if index < data.length then decode_byte (byteSlice data index 1) else 0
  { st with Message := [PyVal.int (MSG_CLEAR : Nat), PyVal.str idp.2, PyVal.int (window : Nat)] }

/-- Source `_parse_close`. -/
def wsjtxmon.parse_close (st : wsjtxmon) (data : List Nat) : wsjtxmon :=
  let idp := parse_utf8 data
  { st with Message := [PyVal.int (MSG_CLOSE : Nat), PyVal.str idp.2] }

/-- Source `_parse_decode`: parse the DECODE payload (the bytes after the 12-byte
frame header) and build the Reply message alongside it.  The reply starts
with magic, the retained schema, the REPLY type code and the monitor's own
length-prefixed `MsgId`, then copies the raw byte ranges of the parsed
fields (for the two strings: the raw 4 length bytes followed by the
re-encoded decoded string), skips the off-air byte, and ends with one zero
"modifiers" byte. -/
def wsjtxmon.parse_decode (st : wsjtxmon) (data : List Nat) : wsjtxmon :=
  let reply := encode_ulong_be MAGIC ++ encode_ulong_be st.Schema ++
    encode_ulong_be MSG_REPLY ++ encode_ulong_be st.MsgId.length ++ encode_string st.MsgId
  let idp := parse_utf8 data
  let index := 4 + idp.1
  let new := decode_byte (byteSlice data index 1)
  let index := index + 1
  let elapsed_ms := decode_be (byteSlice data index 4)
  let reply := reply ++ byteSlice data index 4
  let index := index + 4
  let snr := decode_long_be (byteSlice data index 4)
  let reply := reply ++ byteSlice data index 4
  let index := index + 4
  let dt_bytes := byteSlice data index 8
  let reply := reply ++ byteSlice data index 8
  let index := index + 8
  let freq := decode_be (byteSlice data index 4)
  let reply := reply ++ byteSlice data index 4
  let index := index + 4
  let modep := parse_utf8 (data.drop index)
  let reply := reply ++ byteSlice data index 4 ++ encode_string modep.2
  let index := index + 4 + modep.1
  let msgp := parse_utf8 (data.drop index)
  let reply := reply ++ byteSlice data index 4 ++ encode_string msgp.2
  let index := index + 4 + msgp.1
  let low_conf := decode_byte (byteSlice data index 1)
  let reply := reply ++ byteSlice data index 1
  let index := index + 1
  let off_air := decode_byte (byteSlice data index 1)
  let reply := reply ++ encode_byte 0
  { st with
    Reply := reply
    Message := [PyVal.int (MSG_DECODE : Nat), PyVal.str idp.2, PyVal.int (new : Nat),
      make_time_str elapsed_ms, PyVal.fmt "%+02d zfill 3" [snr],
      PyVal.fmt "%+.1f" (dt_bytes.map fun b => (b : Int)),
      PyVal.fmt "%4d" [(freq : Int)], PyVal.str modep.2, PyVal.str msgp.2,
      PyVal.int (low_conf : Nat), PyVal.int (off_air : Nat)] }

/-- Source `_parse_heartbeat`. -/
def wsjtxmon.parse_heartbeat (st : wsjtxmon) (data : List Nat) : wsjtxmon :=
  let idp := parse_utf8 data
  let index := 4 + idp.1
  let max_schema := decode_be (byteSlice data index 4)
  let index := index + 4
  let verp := parse_utf8 (data.drop index)
  let index := index + 4 + verp.1
  let revp := parse_utf8 (data.drop index)
  { st with Message := [PyVal.int (MSG_HEARTBEAT : Nat), PyVal.str idp.2,
      PyVal.int (max_schema : Nat), PyVal.str verp.2, PyVal.str revp.2] }

/-- Source `_parse_status`: submode is replaced by the one-character placeholder
`"."` (byte 0x2E) when its reported length is 0. -/
def wsjtxmon.parse_status (st : wsjtxmon) (data : List Nat) : wsjtxmon :=
  let idp := parse_utf8 data
  let index := 4 + idp.1
  let freq := decode_be (byteSlice data index 8)
  let index := index + 8
  let modep := parse_utf8 (data.drop index)
  let index := index + 4 + modep.1
  let dxcallp := parse_utf8 (data.drop index)
  let index := index + 4 + dxcallp.1
  let reportp := parse_utf8 (data.drop index)
  let index := index + 4 + reportp.1
  let txmodep := parse_utf8 (data.drop index)
  let index := index + 4 + txmodep.1
  let tx_enable := decode_byte (byteSlice data index 1)
  let index := index + 1
  let tx_now := decode_byte (byteSlice data index 1)
  let index := index + 1
  let decoding := decode_byte (byteSlice data index 1)
  let index := index + 1
  let rx_df := decode_be (byteSlice data index 4)
  let index := index + 4
  let tx_df := decode_be (byteSlice data index 4)
  let index := index + 4
  let decallp := parse_utf8 (data.drop index)
  let index := index + 4 + decallp.1
  let degridp := parse_utf8 (data.drop index)
  let index := index + 4 + degridp.1
  let dxgridp := parse_utf8 (data.drop index)
  let index := index + 4 + dxgridp.1
  let tx_watchdog := decode_byte (byteSlice data index 1)
  let index := index + 1
  let submodep := parse_utf8 (data.drop index)
  let submode_str := if submodep.1 = 0 then [0x2E] else submodep.2
  let index := index + 4 + submodep.1
  let fastmode := decode_byte (byteSlice data index 1)
  let index := index + 1
  let specialopmode := decode_byte (byteSlice data index 1)
  let index := index + 1
  let freq_tol := decode_be (byteSlice data index 4)
  let index := index + 4
  let tr_period := decode_be (byteSlice data index 4)
  let index := index + 4
  let cfgnamep := parse_utf8 (data.drop index)
  { st with Message := [PyVal.int (MSG_STATUS : Nat), PyVal.str idp.2,
      PyVal.int (freq : Nat), PyVal.str modep.2, PyVal.str dxcallp.2,
      PyVal.str reportp.2, PyVal.str txmodep.2, PyVal.int (tx_enable : Nat),
      PyVal.int (tx_now : Nat), PyVal.int (decoding : Nat), PyVal.int (tx_df : Nat),
      PyVal.int (rx_df : Nat), PyVal.str decallp.2, PyVal.str degridp.2,
      PyVal.str dxgridp.2, PyVal.int (tx_watchdog : Nat), PyVal.str submode_str,
      PyVal.int (fastmode : Nat), PyVal.int (specialopmode : Nat),
      PyVal.int (freq_tol : Nat), PyVal.int (tr_period : Nat), PyVal.str cfgnamep.2] }

/-- The cursor position of the submode field inside a STATUS payload: the
index arithmetic of `_parse_status` replayed up to (and including) the
1-byte `tx_watchdog` field that precedes submode. -/
def status_submode_index (data : List Nat) : Nat :=
  let idp := parse_utf8 data
  let index := 4 + idp.1
  let index := index + 8
  let modep := parse_utf8 (data.drop index)
  let index := index + 4 + modep.1
  let dxcallp := parse_utf8 (data.drop index)
  let index := index + 4 + dxcallp.1
  let reportp := parse_utf8 (data.drop index)
  let index := index + 4 + reportp.1
  let txmodep := parse_utf8 (data.drop index)
  let index := index + 4 + txmodep.1
  let index := index + 1
  let index := index + 1
  let index := index + 1
  let index := index + 4
  let index := index + 4
  let decallp := parse_utf8 (data.drop index)
  let index := index + 4 + decallp.1
  let degridp := parse_utf8 (data.drop index)
  let index := index + 4 + degridp.1
  let dxgridp := parse_utf8 (data.drop index)
  let index := index + 4 + dxgridp.1
  index + 1

/-- The raw fields of one QSO-logged date block (`date`, `time`,
`timespec`, `tz_offset`). -/
structure DateBlock where
  date : Nat
  time : Nat
  timespec : Nat
  tz_offset : Int
deriving Repr, DecidableEq

/-- The date/time block that `_parse_qso_logged` reads twice (time-off and
time-on): an 8-byte Julian day, a 4-byte milliseconds-since-midnight, a
1-byte timespec tag, and — only when the tag equals 2 — a 4-byte signed
timezone offset.  Returns the block and the updated cursor; `tz_offset`
keeps its previous value (threaded in) when the tag is not 2, exactly as
the shared Python local variable does. -/
def parse_date_block (data : List Nat) (index : Nat) (tz_offset : Int) : DateBlock × Nat :=
  let date := decode_be (byteSlice data index 8)
  let index := index + 8
  let time := decode_be (byteSlice data index 4)
  let index := index + 4
  let timespec := decode_byte (byteSlice data index 1)
  let index := index + 1
  if timespec = 2 then
    ({ date := date, time := time, timespec := timespec,
       tz_offset := decode_long_be (byteSlice data index 4) }, index + 4)
  else
    ({ date := date, time := time, timespec := timespec, tz_offset := tz_offset }, index)

/-- Source `_parse_qso_logged`. -/
def wsjtxmon.parse_qso_logged (st : wsjtxmon) (data : List Nat) : wsjtxmon :=
  let idp := parse_utf8 data
  let index := 4 + idp.1
  let offBlock := parse_date_block data index 0
  let index := offBlock.2
  let dxcallp := parse_utf8 (data.drop index)
  let index := index + 4 + dxcallp.1
  let dxgridp := parse_utf8 (data.drop index)
  let index := index + 4 + dxgridp.1
  let freq := decode_be (byteSlice data index 8)
  let index := index + 8
  let modep := parse_utf8 (data.drop index)
  let index := index + 4 + modep.1
  let report_sentp := parse_utf8 (data.drop index)
  let index := index + 4 + report_sentp.1
  let report_recdp := parse_utf8 (data.drop index)
  let index := index + 4 + report_recdp.1
  let powerp := parse_utf8 (data.drop index)
  let index := index + 4 + powerp.1
  let commentsp := parse_utf8 (data.drop index)
  let index := index + 4 + commentsp.1
  let namep := parse_utf8 (data.drop index)
  let index := index + 4 + namep.1
  let onBlock := parse_date_block data index offBlock.1.tz_offset
  let index := onBlock.2
  let opcallp := parse_utf8 (data.drop index)
  let index := index + 4 + opcallp.1
  let mycallp := parse_utf8 (data.drop index)
  let index := index + 4 + mycallp.1
  let mygridp := parse_utf8 (data.drop index)
  let index := index + 4 + mygridp.1
  let exch_sentp := parse_utf8 (data.drop index)
  let index := index + 4 + exch_sentp.1
  let exch_rcvdp := parse_utf8 (data.drop index)
  { st with Message := [PyVal.int (MSG_QSO_LOGGED : Nat), PyVal.str idp.2,
      make_date_str offBlock.1.date, make_time_str offBlock.1.time,
      PyVal.str dxcallp.2, PyVal.str dxgridp.2, PyVal.int (freq : Nat),
      PyVal.str modep.2, PyVal.str report_sentp.2, PyVal.str report_recdp.2,
      PyVal.str powerp.2, PyVal.str commentsp.2, PyVal.str namep.2,
      make_date_str onBlock.1.date, make_time_str onBlock.1.time,
      PyVal.str opcallp.2, PyVal.str mycallp.2, PyVal.str mygridp.2,
      PyVal.str exch_sentp.2, PyVal.str exch_rcvdp.2] }

/-- Source `_parse_wspr_decode`. -/
def wsjtxmon.parse_wspr_decode (st : wsjtxmon) (data : List Nat) : wsjtxmon :=
  let idp := parse_utf8 data
  let index := 4 + idp.1
  let new := decode_byte (byteSlice data index 1)
  let index := index + 1
  let elapsed_ms := decode_be (byteSlice data index 4)
  let index := index + 4
  let snr := decode_long_be (byteSlice data index 4)
  let index := index + 4
  let dt_bytes := byteSlice data index 8
  let index := index + 8
  let freq := decode_be (byteSlice data index 8)
  let index := index + 8
  let drift := decode_long_be (byteSlice data index 4)
  let index := index + 4
  let dxcallp := parse_utf8 (data.drop index)
  let index := index + 4 + dxcallp.1
  let dxgridp := parse_utf8 (data.drop index)
  let index := index + 4 + dxgridp.1
  let dbm := decode_long_be (byteSlice data index 4)
  let index := index + 4
  let off_air := decode_byte (byteSlice data index 1)
  { st with Message := [PyVal.int (MSG_WSPR_DECODE : Nat), PyVal.str idp.2,
      PyVal.int (new : Nat), make_time_str elapsed_ms, PyVal.fmt "%+02d zfill 3" [snr],
      PyVal.fmt "%+.1f" (dt_bytes.map fun b => (b : Int)), PyVal.fmt "%6d" [(freq : Int)],
      PyVal.str dxcallp.2, PyVal.str dxgridp.2, PyVal.fmt "str" [dbm],
      PyVal.int (off_air : Nat)] }

/-- Source `_parse_data`: frame validation and dispatch.  `Message` is reset to
`[MSG_NONE]` and `Schema` is overwritten from bytes 4..8 before the magic
number is checked; a bad magic number leaves the rest of the state
untouched (the verbose error print is I/O and not modelled), and an
unknown type code stores `[msg_num]`. -/
def wsjtxmon.parse_data (st : wsjtxmon) (data : List Nat) : wsjtxmon :=
  let st := { st with Message := [PyVal.int (MSG_NONE : Nat)] }
  let magic_num := decode_be (byteSlice data 0 4)
  let st := { st with Schema := decode_be (byteSlice data 4 4) }
  let msg_num := decode_be (byteSlice data 8 4)
  if magic_num = MAGIC then
    if msg_num = MSG_HEARTBEAT then st.parse_heartbeat (data.drop 12)
    else if msg_num = MSG_STATUS then st.parse_status (data.drop 12)
    else if msg_num = MSG_DECODE then st.parse_decode (data.drop 12)
    else if msg_num = MSG_CLEAR then st.parse_clear (data.drop 12)
    else if msg_num = MSG_QSO_LOGGED then st.parse_qso_logged (data.drop 12)
    else if msg_num = MSG_CLOSE then st.parse_close (data.drop 12)
    else if msg_num = MSG_WSPR_DECODE then st.parse_wspr_decode (data.drop 12)
    else if msg_num = MSG_ADIF_LOGGED then st.parse_adif_logged (data.drop 12)
    else { st with Message := [PyVal.int (msg_num : Nat)] }
  else st

/-- The datagram built by `send_highlight` (the "Create the message
buffer" block; the socket send that follows is I/O and outside the
codec): frame header, length-prefixed `MsgId`, length-prefixed callsign,
the two 11-byte color encodings, and the 1-byte last-period flag.
`bg_rgba`/`fg_rgba`, when given, override the color names. -/
def wsjtxmon.highlight_data (st : wsjtxmon) (call : List Nat) (bg_name fg_name : Int)
    (bg_rgba fg_rgba : Option Nat) (last : Bool) : List Nat :=
  let bgcolor := QColor.ofName bg_name 0xFF
  let fgcolor := QColor.ofName fg_name 0xFF
  let ilast : Nat := if last then 1 else 0
  let bgcolor := match bg_rgba with
    | some v => bgcolor.setByValue (-1) (-1) (-1) (-1) (some v)
    | none => bgcolor
  let fgcolor := match fg_rgba with
    | some v => fgcolor.setByValue (-1) (-1) (-1) (-1) (some v)
    | none => fgcolor
  encode_ulong_be MAGIC ++ encode_ulong_be st.Schema ++
    encode_ulong_be MSG_HIGHLIGHT_CALL ++
    encode_ulong_be st.MsgId.length ++ encode_string st.MsgId ++
    encode_ulong_be call.length ++ encode_string call ++
    (bgcolor.encode (-1) (-1) (-1) (-1)).array ++
    (fgcolor.encode (-1) (-1) (-1) (-1)).array ++
    encode_byte ilast

/-! ## Theorems -/

/-- Helper: encoding with all channel arguments negative (the `-1` "keep"
sentinel) serializes the current field values, masked to width. -/
theorem QColor.encode_keep_array (c : QColor) :
    (c.encode (-1) (-1) (-1) (-1)).array =
      [c.cspec % 256, c.alpha % 256, c.alpha / 256 % 256, c.red % 256, c.red / 256 % 256,
       c.grn % 256, c.grn / 256 % 256, c.blu % 256, c.blu / 256 % 256,
       c.pad % 256, c.pad / 256 % 256] := rfl

/-- Helper: decoding an 11-byte buffer succeeds and sets every field from
its slice. -/
theorem QColor.decode_eleven (c0 : QColor) (b0 b1 b2 b3 b4 b5 b6 b7 b8 b9 b10 : Nat) :
    c0.decode [b0, b1, b2, b3, b4, b5, b6, b7, b8, b9, b10] =
      ({ cspec := decode_byte [b0], alpha := decode_le [b1, b2], red := decode_le [b3, b4],
         grn := decode_le [b5, b6], blu := decode_le [b7, b8], pad := decode_le [b9, b10],
         array := c0.array }, true) := rfl

/-- C8: the decoder `QColor.decode` succeeds exactly on buffers of at least 11 bytes;
the check is incremental per field, so each field whose bytes lie fully
before the truncation point is still set from those bytes; and decoding
the output of `QColor.encode` restores exactly the encoded field values
(for any reachable state, i.e. cspec one byte and channels/pad 16 bits
wide). -/
theorem qcolor_decode_incremental_roundtrip (c c0 : QColor) (data : List Nat)
    (hc : c.cspec < 256) (ha : c.alpha < 65536) (hr : c.red < 65536)
    (hg : c.grn < 65536) (hb : c.blu < 65536) (hp : c.pad < 65536) :
    ((c0.decode data).2 = true ↔ 11 ≤ data.length)
    ∧ (1 ≤ data.length → (c0.decode data).1.cspec = decode_byte (byteSlice data 0 1))
    ∧ (3 ≤ data.length → (c0.decode data).1.alpha = decode_le (byteSlice data 1 2))
    ∧ (5 ≤ data.length → (c0.decode data).1.red = decode_le (byteSlice data 3 2))
    ∧ (7 ≤ data.length → (c0.decode data).1.grn = decode_le (byteSlice data 5 2))
    ∧ (9 ≤ data.length → (c0.decode data).1.blu = decode_le (byteSlice data 7 2))
    ∧ (11 ≤ data.length → (c0.decode data).1.pad = decode_le (byteSlice data 9 2))
    ∧ ((c0.decode (c.encode (-1) (-1) (-1) (-1)).array).1.cspec = c.cspec
       ∧ (c0.decode (c.encode (-1) (-1) (-1) (-1)).array).1.alpha = c.alpha
       ∧ (c0.decode (c.encode (-1) (-1) (-1) (-1)).array).1.red = c.red
       ∧ (c0.decode (c.encode (-1) (-1) (-1) (-1)).array).1.grn = c.grn
       ∧ (c0.decode (c.encode (-1) (-1) (-1) (-1)).array).1.blu = c.blu
       ∧ (c0.decode (c.encode (-1) (-1) (-1) (-1)).array).1.pad = c.pad
       ∧ (c0.decode (c.encode (-1) (-1) (-1) (-1)).array).2 = true) := by
  refine ⟨?_, ?_, ?_, ?_, ?_, ?_, ?_, ?_⟩
  · simp only [QColor.decode]
    split_ifs with h1 h2 h3 h4 h5 h6 <;> simp <;> omega
  · intro h
    simp only [QColor.decode]
    split_ifs <;> first | rfl | omega
  · intro h
    simp only [QColor.decode]
    split_ifs <;> first | rfl | omega
  · intro h
    simp only [QColor.decode]
    split_ifs <;> first | rfl | omega
  · intro h
    simp only [QColor.decode]
    split_ifs <;> first | rfl | omega
  · intro h
    simp only [QColor.decode]
    split_ifs <;> first | rfl | omega
  · intro h
    simp only [QColor.decode]
    split_ifs <;> first | rfl | omega
  · rw [QColor.encode_keep_array, QColor.decode_eleven]
    refine ⟨?_, ?_, ?_, ?_, ?_, ?_, rfl⟩ <;>
      simp [decode_byte, decode_be, decode_le] <;> omega

/-- Witness for `qcolor_decode_incremental_roundtrip` at a concrete color
and buffer. -/
theorem qcolor_decode_incremental_roundtrip_w :
    ((QColor.base 255).decode [5, 6]).2 = false ∧
    (((QColor.base 255).decode [5, 6]).1.cspec = decode_byte (byteSlice [5, 6] 0 1)) := by
  have h := qcolor_decode_incremental_roundtrip
    { cspec := 1, red := 300, grn := 2, blu := 3, alpha := 4, pad := 0, array := [] }
    (QColor.base 255) [5, 6] (by decide) (by decide) (by decide) (by decide) (by decide)
    (by decide)
  refine ⟨?_, h.2.1 (by decide)⟩
  have h1 := h.1
  revert h1
  decide

/-- Helper: applying `setByName` with the Invalid pseudo-name sets the sentinel
state. -/
theorem QColor.setByName_invalid (c : QColor) :
    c.setByName COLOR_INVALID (-1) =
      { c with cspec := 0, red := 0xFFFF, grn := 0xFFFF, blu := 0xFFFF,
               alpha := 0xFFFF, pad := 0 } := rfl

/-- C9: setting the reserved Invalid pseudo-name, then encoding, then
decoding yields color space Invalid with all four channels `0xFFFF`,
whatever states the two objects start in. -/
theorem qcolor_invalid_sentinel_roundtrip (c c0 : QColor) :
    ((c0.decode ((c.setByName COLOR_INVALID (-1)).encode (-1) (-1) (-1) (-1)).array).1.cspec
        = CSPEC_INVALID)
    ∧ (c0.decode ((c.setByName COLOR_INVALID (-1)).encode (-1) (-1) (-1) (-1)).array).1.red
        = 0xFFFF
    ∧ (c0.decode ((c.setByName COLOR_INVALID (-1)).encode (-1) (-1) (-1) (-1)).array).1.grn
        = 0xFFFF
    ∧ (c0.decode ((c.setByName COLOR_INVALID (-1)).encode (-1) (-1) (-1) (-1)).array).1.blu
        = 0xFFFF
    ∧ (c0.decode ((c.setByName COLOR_INVALID (-1)).encode (-1) (-1) (-1) (-1)).array).1.alpha
        = 0xFFFF := by
  have harr : ((c.setByName COLOR_INVALID (-1)).encode (-1) (-1) (-1) (-1)).array =
      [0, 255, 255, 255, 255, 255, 255, 255, 255, 0, 0] := by
    rw [QColor.setByName_invalid, QColor.encode_keep_array]
    norm_num
  rw [harr, QColor.decode_eleven]
  refine ⟨by norm_num [decode_byte, decode_be, CSPEC_INVALID], by norm_num [decode_le],
    by norm_num [decode_le], by norm_num [decode_le], by norm_num [decode_le]⟩

set_option maxHeartbeats 1000000 in
/-- C10 (implicit): for a name that is none of the twenty defined color
constants (values 2–21) and not the Invalid pseudo-name 255, `setByName`
leaves the red, green and blue channels unchanged while still forcing
cspec to RGB, pad to 0, and alpha to the supplied value when non-negative
(0xFF otherwise). -/
theorem qcolor_setByName_unknown_name (c : QColor) (name alpha : Int)
    (h1 : name < 2 ∨ 21 < name) (h2 : name ≠ 255) :
    c.setByName name alpha =
      { c with cspec := CSPEC_RGB, pad := 0,
               alpha := if 0 ≤ alpha then alpha.toNat else 0xFF } := by
  simp only [QColor.setByName, COLOR_BLACK, COLOR_WHITE, COLOR_DARK_GRAY, COLOR_GRAY,
    COLOR_LIGHT_GRAY, COLOR_RED, COLOR_GREEN, COLOR_BLUE, COLOR_CYAN, COLOR_MAGENTA,
    COLOR_YELLOW, COLOR_DARK_RED, COLOR_DARK_GREEN, COLOR_DARK_BLUE, COLOR_DARK_CYAN,
    COLOR_DARK_MAGENTA, COLOR_DARK_YELLOW, COLOR_TRANSPARENT, COLOR_ORANGE,
    COLOR_DARK_VIOLET, COLOR_INVALID]
  have e2 : ¬ name = (2 : Int) := by omega
  have e3 : ¬ name = (3 : Int) := by omega
  have e4 : ¬ name = (4 : Int) := by omega
  have e5 : ¬ name = (5 : Int) := by omega
  have e6 : ¬ name = (6 : Int) := by omega
  have e7 : ¬ name = (7 : Int) := by omega
  have e8 : ¬ name = (8 : Int) := by omega
  have e9 : ¬ name = (9 : Int) := by omega
  have e10 : ¬ name = (10 : Int) := by omega
  have e11 : ¬ name = (11 : Int) := by omega
  have e12 : ¬ name = (12 : Int) := by omega
  have e13 : ¬ name = (13 : Int) := by omega
  have e14 : ¬ name = (14 : Int) := by omega
  have e15 : ¬ name = (15 : Int) := by omega
  have e16 : ¬ name = (16 : Int) := by omega
  have e17 : ¬ name = (17 : Int) := by omega
  have e18 : ¬ name = (18 : Int) := by omega
  have e19 : ¬ name = (19 : Int) := by omega
  have e20 : ¬ name = (20 : Int) := by omega
  have e21 : ¬ name = (21 : Int) := by omega
  rw [if_neg e2, if_neg e3, if_neg e4, if_neg e5, if_neg e6, if_neg e7, if_neg e8,
    if_neg e9, if_neg e10, if_neg e11, if_neg e12, if_neg e13, if_neg e14, if_neg e15,
    if_neg e16, if_neg e17, if_neg e18, if_neg e20, if_neg e21, if_neg e19, if_neg h2]
  split <;> rfl

/-- Witness for `qcolor_setByName_unknown_name` at name 99, alpha 7. -/
theorem qcolor_setByName_unknown_name_w :
    (QColor.base 255).setByName 99 7 =
      { QColor.base 255 with cspec := CSPEC_RGB, pad := 0,
                             alpha := if (0 : Int) ≤ 7 then (7 : Int).toNat else 0xFF } :=
  qcolor_setByName_unknown_name (QColor.base 255) 99 7 (Or.inr (by decide)) (by decide)

/-- C6: the HighlightCall datagram for callsign `"N0CALL"` with the
default background Yellow, foreground Black and `last = true` carries,
after the frame header and the length-prefixed id and callsign fields
(34 bytes), the 11-byte little-endian encoding of Yellow
(alpha 255, red 255, green 255, blue 0), then that of Black
(alpha 255, red 0, green 0, blue 0), then the flag byte 1. -/
theorem highlight_n0call_yellow_black :
    (wsjtxmon.init.highlight_data [78, 48, 67, 65, 76, 76] COLOR_YELLOW COLOR_BLACK
        none none true).drop 34 =
      [1, 255, 0, 255, 0, 255, 0, 0, 0, 0, 0] ++
      [1, 255, 0, 0, 0, 0, 0, 0, 0, 0, 0] ++ [1] := by
  decide

/-- C4: a length prefix of `0xFFFFFFFF` is the null-string sentinel — the
field decoder yields the empty string with reported length 0 (so the
caller advances exactly 4 bytes) regardless of trailing bytes; any other
declared length `L` yields exactly the `L` bytes following the prefix. -/
theorem parse_utf8_null_sentinel_and_exact (data : List Nat) (L : Nat)
    (hL : decode_be (byteSlice data 0 4) = L) :
    (L = 0xFFFFFFFF → parse_utf8 data = (0, []))
    ∧ (L ≠ 0xFFFFFFFF → 4 + L ≤ data.length →
        parse_utf8 data = (L, byteSlice data 4 L) ∧ (byteSlice data 4 L).length = L) := by
  constructor
  · intro h
    simp [parse_utf8, hL, h]
  · intro h hlen
    have hL2 : decode_be (List.take 4 data) = L := by simpa [byteSlice] using hL
    refine ⟨by simp [parse_utf8, byteSlice, hL2, h], ?_⟩
    simp [byteSlice]
    omega

/-- Witness for `parse_utf8_null_sentinel_and_exact`: the sentinel prefix
with trailing bytes decodes to the empty string, and a declared length 2
returns exactly the two following bytes. -/
theorem parse_utf8_null_sentinel_and_exact_w :
    parse_utf8 [255, 255, 255, 255, 7, 8] = (0, []) ∧
    parse_utf8 [0, 0, 0, 2, 7, 8, 9] = (2, [7, 8]) := by
  constructor
  · exact (parse_utf8_null_sentinel_and_exact [255, 255, 255, 255, 7, 8] 0xFFFFFFFF
      (by decide)).1 rfl
  · exact ((parse_utf8_null_sentinel_and_exact [0, 0, 0, 2, 7, 8, 9] 2
      (by decide)).2 (by decide) (by decide)).1

/-- C5: in a QSO-logged date block, the 4-byte signed timezone-offset
field is consumed if and only if the 1-byte timespec tag that precedes it
(at offset 12 of the block) equals 2: the cursor advances 17 bytes and
the offset is decoded from the 4 bytes after the tag when the tag is 2,
and advances only 13 bytes, keeping the previous offset value, otherwise.
`parse_qso_logged` invokes this block at both date positions (time-off
and time-on), so every later field shifts accordingly. -/
theorem qso_date_block_tz_iff (data : List Nat) (i : Nat) (tz : Int) :
    (parse_date_block data i tz).2
        = i + 13 + (if decode_byte (byteSlice data (i + 12) 1) = 2 then 4 else 0)
    ∧ (parse_date_block data i tz).1.tz_offset
        = (if decode_byte (byteSlice data (i + 12) 1) = 2
            then decode_long_be (byteSlice data (i + 13) 4) else tz) := by
  have e1 : i + 8 + 4 = i + 12 := by omega
  have e2 : i + 8 + 4 + 1 = i + 13 := by omega
  have e3 : i + 12 + 1 = i + 13 := by omega
  by_cases h : decode_byte (byteSlice data (i + 12) 1) = 2 <;>
    simp [parse_date_block, e1, e2, e3, h] <;> omega

/-- C7: the submode entry of a parsed STATUS message (position 16 of the
message list) is the placeholder `"."` (byte 0x2E) exactly when the
submode field decodes with reported length 0 (an explicit zero length or
the null sentinel); a non-empty decoded submode is kept unchanged. -/
theorem status_submode_placeholder (st : wsjtxmon) (data : List Nat) :
    (st.parse_status data).Message[16]? =
      some (PyVal.str
        (if (parse_utf8 (data.drop (status_submode_index data))).1 = 0
         then [0x2E]
         else (parse_utf8 (data.drop (status_submode_index data))).2)) := rfl

/-- C3 counterexample: a 12-byte datagram whose magic is wrong still
overwrites the retained schema value — here a decoder holding schema 5
receives a bad-magic datagram carrying schema field 7 and ends up with
schema 7, so the call does change decoder state beyond the
`HeaderInvalid` report. -/
theorem parse_data_bad_magic_changes_schema :
    (({ wsjtxmon.init with Schema := 5 } : wsjtxmon).parse_data
        [0, 0, 0, 0, 0, 0, 0, 7, 0, 0, 0, 0]).Schema ≠
      ({ wsjtxmon.init with Schema := 5 } : wsjtxmon).Schema := by
  decide

/-- C3 (amended): on a 12-byte-or-longer datagram with invalid magic the
decoder reports `HeaderInvalid` (`Message = [MSG_NONE]`), runs no
per-type parser and leaves `Reply` and `MsgId` untouched — but the
retained schema value is overwritten with the datagram's schema field
(bytes 4..8), because that store happens before the magic check. -/
theorem parse_data_bad_magic_state (st : wsjtxmon) (data : List Nat)
    (hlen : 12 ≤ data.length)
    (hmag : decode_be (byteSlice data 0 4) ≠ MAGIC) :
    st.parse_data data =
      { st with Message := [PyVal.int (MSG_NONE : Nat)],
                Schema := decode_be (byteSlice data 4 4) } := by
  simp only [wsjtxmon.parse_data]
  rw [if_neg hmag]

/-- Witness for `parse_data_bad_magic_state` at a concrete datagram. -/
theorem parse_data_bad_magic_state_w :
    wsjtxmon.init.parse_data [0, 0, 0, 0, 0, 0, 0, 9, 0, 0, 0, 0] =
      { wsjtxmon.init with Message := [PyVal.int (MSG_NONE : Nat)], Schema := 9 } := by
  have h := parse_data_bad_magic_state wsjtxmon.init [0, 0, 0, 0, 0, 0, 0, 9, 0, 0, 0, 0]
    (by decide) (by decide)
  rw [h]
  decide

/-- Helper: the exact shape of the Reply built by `parse_decode` — header
and id prefix, then the raw byte ranges of the echoed fields (for the two
strings: raw length bytes plus the re-encoded decoded string), then the
zero modifiers byte; the off-air byte at the end of the payload is never
appended. -/
theorem parse_decode_reply (st : wsjtxmon) (data : List Nat) :
    (st.parse_decode data).Reply =
      (let idl := (parse_utf8 data).1
       let ml := (parse_utf8 (data.drop (4 + idl + 1 + 4 + 4 + 8 + 4))).1
       let tl := (parse_utf8 (data.drop (4 + idl + 1 + 4 + 4 + 8 + 4 + 4 + ml))).1
       encode_ulong_be MAGIC ++ encode_ulong_be st.Schema ++ encode_ulong_be MSG_REPLY ++
         encode_ulong_be st.MsgId.length ++ encode_string st.MsgId ++
         byteSlice data (4 + idl + 1) 4 ++
         byteSlice data (4 + idl + 1 + 4) 4 ++
         byteSlice data (4 + idl + 1 + 4 + 4) 8 ++
         byteSlice data (4 + idl + 1 + 4 + 4 + 8) 4 ++
         byteSlice data (4 + idl + 1 + 4 + 4 + 8 + 4) 4 ++
         encode_string (parse_utf8 (data.drop (4 + idl + 1 + 4 + 4 + 8 + 4))).2 ++
         byteSlice data (4 + idl + 1 + 4 + 4 + 8 + 4 + 4 + ml) 4 ++
         encode_string (parse_utf8 (data.drop (4 + idl + 1 + 4 + 4 + 8 + 4 + 4 + ml))).2 ++
         byteSlice data (4 + idl + 1 + 4 + 4 + 8 + 4 + 4 + ml + 4 + tl) 1 ++
         encode_byte 0) := rfl

/-- The header-and-id prefix of every Reply message. -/
def reply_head (st : wsjtxmon) : List Nat :=
  encode_ulong_be MAGIC ++ encode_ulong_be st.Schema ++ encode_ulong_be MSG_REPLY ++
    encode_ulong_be st.MsgId.length ++ encode_string st.MsgId

theorem reply_head_length (st : wsjtxmon) :
    (reply_head st).length = 16 + st.MsgId.length := by
  simp [reply_head, encode_ulong_be, encode_string]
  omega

/-- Helper: restatement of `parse_decode_reply` with the Reply split into the header/id
prefix and the echoed tail. -/
theorem parse_decode_reply_split (st : wsjtxmon) (data : List Nat) :
    (st.parse_decode data).Reply =
      reply_head st ++
        (let idl := (parse_utf8 data).1
         let ml := (parse_utf8 (data.drop (4 + idl + 1 + 4 + 4 + 8 + 4))).1
         let tl := (parse_utf8 (data.drop (4 + idl + 1 + 4 + 4 + 8 + 4 + 4 + ml))).1
         byteSlice data (4 + idl + 1) 4 ++
           (byteSlice data (4 + idl + 1 + 4) 4 ++
            (byteSlice data (4 + idl + 1 + 4 + 4) 8 ++
             (byteSlice data (4 + idl + 1 + 4 + 4 + 8) 4 ++
              (byteSlice data (4 + idl + 1 + 4 + 4 + 8 + 4) 4 ++
               (encode_string (parse_utf8 (data.drop (4 + idl + 1 + 4 + 4 + 8 + 4))).2 ++
                (byteSlice data (4 + idl + 1 + 4 + 4 + 8 + 4 + 4 + ml) 4 ++
                 (encode_string
                    (parse_utf8 (data.drop (4 + idl + 1 + 4 + 4 + 8 + 4 + 4 + ml))).2 ++
                  (byteSlice data (4 + idl + 1 + 4 + 4 + 8 + 4 + 4 + ml + 4 + tl) 1 ++
                   encode_byte 0)))))))))  := by
  rw [parse_decode_reply]
  simp [reply_head, List.append_assoc]

theorem byteSlice_add (data : List Nat) (i a b : Nat) :
    byteSlice data i (a + b) = byteSlice data i a ++ byteSlice data (i + a) b := by
  simp [byteSlice, List.take_add, List.drop_drop]

theorem parse_utf8_snd_slice (data : List Nat) (p : Nat) :
    (parse_utf8 (data.drop p)).2 =
      byteSlice data (p + 4) (parse_utf8 (data.drop p)).1 := by
  simp only [parse_utf8, byteSlice]
  split
  · simp
  · simp [List.drop_drop]

/-- Helper: on a valid-magic DECODE frame, `parse_data` reduces to
`parse_decode` on the payload, after storing the inbound schema. -/
theorem parse_data_to_decode (st : wsjtxmon) (data : List Nat)
    (hmag : decode_be (byteSlice data 0 4) = MAGIC)
    (hmsg : decode_be (byteSlice data 8 4) = MSG_DECODE) :
    st.parse_data data =
      ({ st with Message := [PyVal.int (MSG_NONE : Nat)],
                 Schema := decode_be (byteSlice data 4 4) }).parse_decode (data.drop 12) := by
  simp only [wsjtxmon.parse_data, hmag, hmsg]
  norm_num [MAGIC, MSG_HEARTBEAT, MSG_STATUS, MSG_DECODE]

/-- A concrete inbound DECODE datagram: id `"A"`, new flag 1,
elapsed 100 ms, snr −20, delta time 0, delta frequency 300, empty mode
and text, low-confidence 0, off-air 1. -/
def decode_sample : List Nat :=
  [173, 188, 203, 218, 0, 0, 0, 2, 0, 0, 0, 2] ++
  ([0, 0, 0, 1, 65] ++ [1] ++ [0, 0, 0, 100] ++ [255, 255, 255, 236] ++
   [0, 0, 0, 0, 0, 0, 0, 0] ++ [0, 0, 1, 44] ++ [0, 0, 0, 0] ++ [0, 0, 0, 0] ++ [0] ++ [1])

/-- C2 counterexample: the reply to a Decode message whose id string is
`"A"` does not begin with magic/schema/Reply-code followed by that inbound
id — the id placed in the reply is the monitor's own fixed `MsgId`
(`"WSJTXMON"`), not the inbound message's id. -/
theorem decode_reply_id_not_inbound_cex :
    (wsjtxmon.init.parse_data decode_sample).Reply.take 17 ≠
      [173, 188, 203, 218] ++ [0, 0, 0, 2] ++ [0, 0, 0, 4] ++ [0, 0, 0, 1] ++ [65] := by
  decide

/-- C2 (amended): for every inbound Decode datagram, the reply begins with
the frame magic `0xADBCCBDA`, the schema value copied from the inbound
frame's header (bytes 4..8), the fixed Reply type code 4, and the
monitor's own id string `MsgId` as a 4-byte length followed by its bytes —
not the inbound message's id. -/
theorem decode_reply_header_fields (st : wsjtxmon) (data : List Nat)
    (hmag : decode_be (byteSlice data 0 4) = MAGIC)
    (hmsg : decode_be (byteSlice data 8 4) = MSG_DECODE) :
    (st.parse_data data).Reply.take (16 + st.MsgId.length) =
      encode_ulong_be MAGIC ++ encode_ulong_be (decode_be (byteSlice data 4 4)) ++
        encode_ulong_be MSG_REPLY ++ encode_ulong_be st.MsgId.length ++ st.MsgId := by
  rw [parse_data_to_decode st data hmag hmsg, parse_decode_reply_split]
  have hl : (reply_head { st with Message := [PyVal.int (MSG_NONE : Nat)], Schema := decode_be (byteSlice data 4 4) }).length = 16 + st.MsgId.length := by rw [reply_head_length]
  rw [List.take_left' hl]
  simp [reply_head, encode_string]

/-- Witness for `decode_reply_header_fields` at the concrete sample
datagram. -/
theorem decode_reply_header_fields_w :
    (wsjtxmon.init.parse_data decode_sample).Reply.take (16 + wsjtxmon.init.MsgId.length) =
      encode_ulong_be MAGIC ++
        encode_ulong_be (decode_be (byteSlice decode_sample 4 4)) ++
        encode_ulong_be MSG_REPLY ++ encode_ulong_be wsjtxmon.init.MsgId.length ++
        wsjtxmon.init.MsgId := by
  exact decode_reply_header_fields wsjtxmon.init decode_sample (by decide) (by decide)

/-- C1: for an inbound Decode datagram (valid magic, type 2) whose fields
all lie within the buffer, the reply after its 16-byte-plus-id prefix is
byte-for-byte the concatenation of the original datagram's payload byte
ranges for elapsed_ms (4), snr (4), delta_time (8), delta_freq (4), mode
length+bytes (4+ml), text length+bytes (4+tl) and low_confidence (1),
followed by exactly one zero byte; the off-air byte is not copied. -/
theorem decode_reply_echo_ranges (st : wsjtxmon) (data : List Nat) (idl ml tl : Nat)
    (hmag : decode_be (byteSlice data 0 4) = MAGIC)
    (hmsg : decode_be (byteSlice data 8 4) = MSG_DECODE)
    (hid : idl = (parse_utf8 (data.drop 12)).1)
    (hml : ml = (parse_utf8 ((data.drop 12).drop (4 + idl + 1 + 4 + 4 + 8 + 4))).1)
    (htl : tl = (parse_utf8 ((data.drop 12).drop (4 + idl + 1 + 4 + 4 + 8 + 4 + 4 + ml))).1)
    (hlen : 12 + (4 + idl + 1 + 4 + 4 + 8 + 4 + 4 + ml + 4 + tl + 1 + 1) ≤ data.length) :
    (st.parse_data data).Reply.drop (16 + st.MsgId.length) =
      byteSlice (data.drop 12) (4 + idl + 1) 4 ++
      byteSlice (data.drop 12) (4 + idl + 1 + 4) 4 ++
      byteSlice (data.drop 12) (4 + idl + 1 + 4 + 4) 8 ++
      byteSlice (data.drop 12) (4 + idl + 1 + 4 + 4 + 8) 4 ++
      byteSlice (data.drop 12) (4 + idl + 1 + 4 + 4 + 8 + 4) (4 + ml) ++
      byteSlice (data.drop 12) (4 + idl + 1 + 4 + 4 + 8 + 4 + 4 + ml) (4 + tl) ++
      byteSlice (data.drop 12) (4 + idl + 1 + 4 + 4 + 8 + 4 + 4 + ml + 4 + tl) 1 ++ [0] := by
  subst hid
  subst hml
  subst htl
  rw [parse_data_to_decode st data hmag hmsg, parse_decode_reply_split]
  have hl : (reply_head { st with Message := [PyVal.int (MSG_NONE : Nat)], Schema := decode_be (byteSlice data 4 4) }).length = 16 + st.MsgId.length := by rw [reply_head_length]
  rw [List.drop_left' hl]
  simp only [byteSlice_add, parse_utf8_snd_slice, encode_string, encode_byte]
  simp [List.append_assoc]

/-- Witness for `decode_reply_echo_ranges` at the concrete sample
datagram: the echoed tail is the raw field bytes followed by one zero. -/
theorem decode_reply_echo_ranges_w :
    (wsjtxmon.init.parse_data decode_sample).Reply.drop (16 + wsjtxmon.init.MsgId.length) =
      [0, 0, 0, 100, 255, 255, 255, 236, 0, 0, 0, 0, 0, 0, 0, 0, 0, 0, 1, 44,
       0, 0, 0, 0, 0, 0, 0, 0, 0, 0] := by
  rw [decode_reply_echo_ranges wsjtxmon.init decode_sample 1 0 0 (by decide) (by decide)
    (by decide) (by decide) (by decide) (by decide)]
  decide
